import Mathlib

/-!
Verification development for the pulsar protocol runtime and data-store
surface.  Python strings are modelled as `List Char`, Python exceptions as
`Except String`, and the stateful classes of `pulsar/async/protocols.py`
and `pulsar/apps/data/store.py` as explicit state-passing functions.
-/

/-- Python strings are modelled as lists of characters. -/
abbrev Str := List Char

deriving instance DecidableEq for Except

/-! ## String helpers (models of Python `str` operations) -/

/-- Model of Python `s.split(sep)` for a one-character separator: splits on
every occurrence of `sep`; the empty string yields `[""]`. -/
def splitOnC (sep : Char) : Str → List Str
  | [] => [[]]
  | c :: rest =>
    match splitOnC sep rest with
    | [] => [[c]]
    | s :: ss => if c = sep then [] :: s :: ss else (c :: s) :: ss

/-- Split a string at the first occurrence of `sep`, dropping the separator;
if `sep` does not occur the whole string is the first component. -/
def splitFirstC (sep : Char) : Str → Str × Str
  | [] => ([], [])
  | c :: r =>
    if c = sep then ([], r)
    else
      let p := splitFirstC sep r
      (c :: p.1, p.2)

/-- Numeric value of a decimal digit character, `none` for non-digits. -/
def digitVal (c : Char) : Option Nat :=
  if '0' ≤ c ∧ c ≤ '9' then some (c.toNat - '0'.toNat) else none

/-- Accumulate the decimal value of a digit string; `none` on any non-digit. -/
def digitsAux : Nat → Str → Option Nat
  | acc, [] => some acc
  | acc, c :: r =>
    match digitVal c with
    | some d => digitsAux (10 * acc + d) r
    | none => none

/-- Model of Python `int(s)`: optional sign followed by at least one decimal
digit; anything else raises a `ValueError`. -/
def pyInt (s : Str) : Except String Int :=
  let core : Str → Option Int := fun t =>
    match t with
    | [] => none
    | _ => (digitsAux 0 t).map Int.ofNat
  match s with
  | '-' :: r =>
    match core r with
    | some n => .ok (-n)
    | none => .error "invalid literal for int()"
  | '+' :: r =>
    match core r with
    | some n => .ok n
    | none => .error "invalid literal for int()"
  | _ =>
    match core s with
    | some n => .ok n
    | none => .error "invalid literal for int()"

/-! ## Model of the data-store URL parsing (`pulsar/apps/data/store.py`) -/

/-- Split a string at the first occurrence of the substring `://`. -/
def splitSchemeRest : Str → Option (Str × Str)
  | [] => none
  | ':' :: '/' :: '/' :: rest => some ([], rest)
  | c :: rest => (splitSchemeRest rest).map (fun p => (c :: p.1, p.2))

/-- Modelled from the spec: `urlsplit` comes from `pulsar.utils.httpurl`
(the standard library's `urllib.parse.urlsplit`), which is not under `src/`.
For URLs of the spec grammar `scheme://[user:password@]host[:port][/database]
[?k=v&...]` it returns the five components
`(scheme, netloc, path, query, fragment)`. -/
def urlsplitM (u : Str) : Str × Str × Str × Str × Str :=
  match splitSchemeRest u with
  | none =>
    let (beforeHash, frag) := splitFirstC '#' u
    let (path, query) := splitFirstC '?' beforeHash
    ([], [], path, query, frag)
  | some (scheme, rest) =>
    let netloc := rest.takeWhile (fun c => !(c = '/' ∨ c = '?' ∨ c = '#'))
    let rest1 := rest.dropWhile (fun c => !(c = '/' ∨ c = '?' ∨ c = '#'))
    let (beforeHash, frag) := splitFirstC '#' rest1
    let (path, query) := splitFirstC '?' beforeHash
    (scheme, netloc, path, query, frag)

/-- Modelled from the spec: `parse_qsl` comes from `pulsar.utils.httpurl`
(standard library), not under `src/`.  It splits the query on `&` and each
item on the first `=`, skipping items without an `=` or with a blank value. -/
def parse_qsl (query : Str) : List (Str × Str) :=
  (splitOnC '&' query).filterMap fun item =>
    let p := splitFirstC '=' item
    if p.2 = [] then none else some p

/-- Python `dict` assignment `d[k] = v`: replace the value of an existing key
in place, otherwise append the new binding. -/
def dinsert (d : List (Str × Str)) (k v : Str) : List (Str × Str) :=
  if d.any (fun kv => kv.1 == k) then
    d.map (fun kv => if kv.1 == k then (k, v) else kv)
  else d ++ [(k, v)]

/-- Python `dict(pairs)`: left-to-right insertion with replacement. -/
def pyDict (l : List (Str × Str)) : List (Str × Str) :=
  l.foldl (fun d kv => dinsert d kv.1 kv.2) []

/-- Lookup in the association-list model of a Python dict. -/
def dlookup (d : List (Str × Str)) (k : Str) : Option Str :=
  (d.find? (fun kv => kv.1 == k)).map (·.2)

/-- The host value returned by `parse_store_url`: either the raw host string
or a `(host, port)` pair once a `:` is found. -/
inductive HostV where
  | str (s : Str)
  | pair (h : Str) (p : Int)
  deriving DecidableEq

/-- The final host-processing stage of `parse_store_url`
(`store.py` lines 462-465): `if ':' in host: host = tuple(host.split(':'));
host = host[0], int(host[1])`. -/
def hostParse (host : Str) : Except String HostV :=
  if ':' ∈ host then
    match splitOnC ':' host with
    | h0 :: h1 :: _ =>
      match pyInt h1 with
      | .ok n => .ok (.pair h0 n)
      | .error e => .error e
    | _ => .error "unreachable host split"
  else .ok (.str host)

/-- `parse_store_url` from `pulsar/apps/data/store.py`.  Python `assert`
failures and `ValueError` are modelled as `Except.error`. -/
def parse_store_url (url : Str) : Except String (Str × HostV × List (Str × Str)) := do
  if url = [] then throw "No url given"
  let (scheme, netloc, path, query, fr) := urlsplitM url
  if fr ≠ [] then throw "store url must not have fragment"
  if scheme = [] then throw "Scheme not provided"
  let host0 := if scheme = "pulsar".toList ∧ netloc = [] then "127.0.0.1:0".toList else netloc
  let bits := splitOnC '@' host0
  if bits.length > 2 then throw "Too many @ in url"
  let params0 := pyDict (parse_qsl query)
  let params1 ←
    if path ≠ [] then do
      let database := path.drop 1
      if database.contains '/' then throw "Unsupported database"
      pure (dinsert params0 "database".toList database)
    else pure params0
  let (params2, host1) ←
    match bits with
    | [userpass, h] =>
      match splitOnC ':' userpass with
      | [u, p] =>
        pure (dinsert (dinsert params1 "user".toList u) "password".toList p, h)
      | _ => throw "User and password not in user:password format"
    | _ => pure (params1, host0)
  let hv ← hostParse host1
  return (scheme, hv, params2)

/-! ## Lemmas about `splitOnC` -/

theorem splitOnC_ne_nil (sep : Char) (s : Str) : splitOnC sep s ≠ [] := by
  induction s with
  | nil => simp [splitOnC]
  | cons c rest ih =>
    simp only [splitOnC]
    cases h : splitOnC sep rest with
    | nil => simp
    | cons x xs =>
      by_cases hc : c = sep <;> simp [hc]

theorem splitOnC_no_sep (sep : Char) (s : Str) (h : sep ∉ s) :
    splitOnC sep s = [s] := by
  induction s with
  | nil => simp [splitOnC]
  | cons c rest ih =>
    have hc : c ≠ sep := by
      intro heq; exact h (heq ▸ List.mem_cons_self c rest)
    have hrest : sep ∉ rest := fun hm => h (List.mem_cons_of_mem c hm)
    simp only [splitOnC, ih hrest]
    simp [hc]

theorem splitOnC_append (sep : Char) (a r : Str) (h : sep ∉ a) :
    splitOnC sep (a ++ sep :: r) = a :: splitOnC sep r := by
  induction a with
  | nil =>
    simp only [List.nil_append, splitOnC]
    cases hr : splitOnC sep r with
    | nil => exact absurd hr (splitOnC_ne_nil sep r)
    | cons x xs => simp
  | cons c a' ih =>
    have hc : c ≠ sep := by
      intro heq; exact h (heq ▸ List.mem_cons_self c a')
    have ha' : sep ∉ a' := fun hm => h (List.mem_cons_of_mem c hm)
    simp only [List.cons_append, splitOnC, List.append_eq]
    rw [ih ha']
    simp [hc]

/-! ## Claims C7 and C10: URL parsing -/

/-- C7: `parse_store_url "redis://u:p@10.0.0.1:6500/11?namespace=x"` returns
scheme `redis`, host `("10.0.0.1", 6500)` with the port as an integer, and
params `{user: "u", password: "p", database: "11", namespace: "x"}`;
`parse_store_url "pulsar://"` (empty host) returns host `("127.0.0.1", 0)`. -/
theorem C7_parse_store_url_examples :
    parse_store_url "redis://u:p@10.0.0.1:6500/11?namespace=x".toList =
      .ok ("redis".toList,
           HostV.pair "10.0.0.1".toList 6500,
           [("namespace".toList, "x".toList), ("database".toList, "11".toList),
            ("user".toList, "u".toList), ("password".toList, "p".toList)]) ∧
    parse_store_url "pulsar://".toList =
      .ok ("pulsar".toList, HostV.pair "127.0.0.1".toList 0, []) :=
  ⟨by decide, by decide⟩

/-- C10: for every host (after credential stripping) containing a `:`, the
host stage of `parse_store_url` returns the pair of the text before the first
`:` and the integer value of the second `:`-separated segment; segments after
the second are silently discarded, and a non-numeric second segment makes
parsing fail with an exception. -/
theorem C10_host_colon_split :
    (∀ s₁ s₂ rest : Str, ':' ∉ s₁ → ':' ∉ s₂ →
      hostParse (s₁ ++ ':' :: s₂) = (pyInt s₂).map (HostV.pair s₁) ∧
      hostParse (s₁ ++ ':' :: (s₂ ++ ':' :: rest)) = (pyInt s₂).map (HostV.pair s₁)) ∧
    parse_store_url "redis://10.0.0.1:6500:99:zz".toList =
      .ok ("redis".toList, HostV.pair "10.0.0.1".toList 6500, []) ∧
    parse_store_url "redis://10.0.0.1:abc".toList = .error "invalid literal for int()" := by
  refine ⟨?_, by decide, by decide⟩
  intro s₁ s₂ rest h1 h2
  constructor
  · unfold hostParse
    rw [if_pos (by simp)]
    rw [splitOnC_append _ _ _ h1, splitOnC_no_sep _ _ h2]
    cases h : pyInt s₂ <;> simp [Except.map, h]
  · unfold hostParse
    rw [if_pos (by simp)]
    rw [splitOnC_append _ _ _ h1, splitOnC_append _ _ _ h2]
    cases h : pyInt s₂ <;> simp [Except.map, h]

/-- Witness for C10 at a concrete host with three segments. -/
theorem C10_host_colon_split_witness :
    hostParse ("h".toList ++ ':' :: "12".toList) =
      (pyInt "12".toList).map (HostV.pair "h".toList) ∧
    hostParse ("h".toList ++ ':' :: ("12".toList ++ ':' :: "x".toList)) =
      (pyInt "12".toList).map (HostV.pair "h".toList) :=
  C10_host_colon_split.1 "h".toList "12".toList "x".toList (by decide) (by decide)

/-! ## Model of `PubSub.broadcast` (`pulsar/apps/data/store.py` 419-435)

Clients are identified by natural numbers; a client's behaviour on an
invocation is summarised by a `ClientAction`: whether the call raises, and
which clients it adds to / removes from the pub/sub handler while running.
The client set is a Python `set`, modelled as a duplicate-free list; iterating
it follows CPython semantics: every call to the iterator's `next` first
compares the current size with the size at iterator creation and raises
`RuntimeError: Set changed size during iteration` on any difference. -/

structure ClientAction where
  raises : Bool
  adds : List Nat
  removes : List Nat

/-- The behaviour of every client: given the client id, the channel and the
message, what the callback does. -/
abbrev Behav := Nat → Str → Str → ClientAction

/-- Python `set.add`. -/
def setAdd (s : List Nat) (x : Nat) : List Nat :=
  if x ∈ s then s else s ++ [x]

/-- Python `set.discard`. -/
def setDiscard (s : List Nat) (x : Nat) : List Nat :=
  s.filter (fun y => !(y == x))

/-- Apply the `add_client` / `remove_client` calls a callback performs. -/
def applyAction (cur : List Nat) (a : ClientAction) : List Nat :=
  a.removes.foldl setDiscard (a.adds.foldl setAdd cur)

/-- Result of a broadcast: the surviving client set (or the uncaught
`RuntimeError`) and the trace of client invocations `(client, channel,
message)` made before the broadcast finished or crashed. -/
structure BcRes where
  result : Except String (List Nat)
  log : List (Nat × Str × Str)
  deriving DecidableEq

/-- The `for client in self._clients` loop of `PubSub.broadcast`:
`remaining` are the clients the iterator has not yet yielded, `cur` the live
set, `n0` its size when the iterator was created, `removeAcc` the `remove`
set of clients marked for eviction.  Each step first performs the CPython
size check; at the end the marked clients are evicted
(`self._clients.difference_update(remove)`). -/
def bcLoop (behav : Behav) (ch msg : Str) (n0 : Nat) :
    List Nat → List Nat → List Nat → List (Nat × Str × Str) → BcRes
  | [], cur, removeAcc, log =>
    if cur.length ≠ n0 then ⟨.error "Set changed size during iteration", log⟩
    else ⟨.ok (cur.filter (fun c => !(removeAcc.contains c))), log⟩
  | c :: rest, cur, removeAcc, log =>
    if cur.length ≠ n0 then ⟨.error "Set changed size during iteration", log⟩
    else
      bcLoop behav ch msg n0 rest (applyAction cur (behav c ch msg))
        (if (behav c ch msg).raises then removeAcc ++ [c] else removeAcc)
        (log ++ [(c, ch, msg)])

/-- `PubSub.broadcast(response)`: decode the channel (identity in the model),
decode the message through the optional protocol, then run the client loop. -/
def PubSub_broadcast (protocol : Option (Str → Str)) (behav : Behav)
    (clients : List Nat) (response : Str × Str) : BcRes :=
  let channel := response.1
  let message :=
    match protocol with
    | some dec => dec response.2
    | none => response.2
  bcLoop behav channel message clients.length clients clients [] []

/-- A family of callbacks performs no `add_client` / `remove_client` call for
any of the given clients. -/
def noMut (behav : Behav) (ch msg : Str) (l : List Nat) : Prop :=
  ∀ c ∈ l, (behav c ch msg).adds = [] ∧ (behav c ch msg).removes = []

theorem bcLoop_noMut (behav : Behav) (ch msg : Str) (n0 : Nat) :
    ∀ remaining cur removeAcc log, noMut behav ch msg remaining → cur.length = n0 →
      bcLoop behav ch msg n0 remaining cur removeAcc log =
        ⟨.ok (cur.filter (fun c =>
            !((removeAcc ++ remaining.filter (fun c => (behav c ch msg).raises)).contains c))),
         log ++ remaining.map (fun c => (c, ch, msg))⟩ := by
  intro remaining
  induction remaining with
  | nil =>
    intro cur removeAcc log _ hlen
    simp [bcLoop, hlen]
  | cons c rest ih =>
    intro cur removeAcc log hmut hlen
    have hc := hmut c (List.mem_cons_self c rest)
    have hrest : noMut behav ch msg rest := fun x hx => hmut x (List.mem_cons_of_mem c hx)
    have hcur : applyAction cur (behav c ch msg) = cur := by
      simp [applyAction, hc.1, hc.2]
    rw [bcLoop, if_neg (by simp [hlen]), hcur, ih cur _ _ hrest hlen]
    by_cases hr : (behav c ch msg).raises
    · rw [if_pos hr]
      simp [List.filter_cons, hr, List.append_assoc]
    · rw [if_neg hr]
      simp [List.filter_cons, hr]

/-! ## Claims C6 and C2: broadcast semantics -/

/-- A client that raises on every call while client 1 never raises. -/
def raisingBehav : Behav := fun c _ _ => if c = 0 then ⟨true, [], []⟩ else ⟨false, [], []⟩

/-- C6: during `PubSub.broadcast` every registered client is invoked with
`(channel, message)`; a client whose invocation raises is removed from the
client set at the end of the broadcast while non-raising clients remain; with
two clients of which one raises on every call, after three messages the
raising client is evicted and the other has received every message in
order. -/
theorem C6_broadcast_eviction :
    (∀ (behav : Behav) (ch msg : Str) (clients : List Nat),
        noMut behav ch msg clients →
        PubSub_broadcast none behav clients (ch, msg) =
          ⟨.ok (clients.filter (fun c => !(behav c ch msg).raises)),
           clients.map (fun c => (c, ch, msg))⟩) ∧
    PubSub_broadcast none raisingBehav [0, 1] ("ch".toList, "m1".toList) =
      ⟨.ok [1], [(0, "ch".toList, "m1".toList), (1, "ch".toList, "m1".toList)]⟩ ∧
    PubSub_broadcast none raisingBehav [1] ("ch".toList, "m2".toList) =
      ⟨.ok [1], [(1, "ch".toList, "m2".toList)]⟩ ∧
    PubSub_broadcast none raisingBehav [1] ("ch".toList, "m3".toList) =
      ⟨.ok [1], [(1, "ch".toList, "m3".toList)]⟩ := by
  refine ⟨?_, by decide, by decide, by decide⟩
  intro behav ch msg clients hmut
  unfold PubSub_broadcast
  rw [bcLoop_noMut behav ch msg clients.length clients clients [] [] hmut rfl]
  simp only [List.nil_append]
  congr 1
  congr 1
  apply List.filter_congr
  intro x hx
  simp [List.mem_filter, hx]

/-- Witness for C6: two non-mutating, non-raising clients both receive the
message and both survive. -/
theorem C6_broadcast_eviction_witness :
    PubSub_broadcast none (fun _ _ _ => ⟨false, [], []⟩) [0, 1] ("c".toList, "m".toList) =
      ⟨.ok [0, 1], [(0, "c".toList, "m".toList), (1, "c".toList, "m".toList)]⟩ :=
  (C6_broadcast_eviction.1 (fun _ _ _ => ⟨false, [], []⟩) "c".toList "m".toList [0, 1]
    (fun _ _ => ⟨rfl, rfl⟩)).trans (by decide)

/-- A client that registers a new client 1 during its own invocation. -/
def addingBehav : Behav := fun c _ _ => if c = 0 then ⟨false, [1], []⟩ else ⟨false, [], []⟩

/-- Counterexample to C2 as stated: `broadcast` does not iterate a snapshot;
a client callback that adds a client during the broadcast crashes it with
`RuntimeError: Set changed size during iteration`. -/
theorem C2_snapshot_cex :
    (PubSub_broadcast none addingBehav [0] ("c".toList, "m".toList)).result =
      .error "Set changed size during iteration" := by decide

/-- C2 (amended): `PubSub.broadcast` iterates the live client set rather than
a snapshot; callbacks that perform no `add_client`/`remove_client` never crash
the broadcast, but a callback that adds a fresh client during the broadcast
makes it raise a `RuntimeError`; the client added during a broadcast is still
not invoked for the message currently being broadcast, since the iteration
raises before reaching it. -/
theorem C2_live_iteration :
    (∀ (behav : Behav) (ch msg : Str) (clients : List Nat),
        noMut behav ch msg clients →
        ∃ survivors,
          (PubSub_broadcast none behav clients (ch, msg)).result = .ok survivors) ∧
    (∀ (behav : Behav) (ch msg : Str) (c₀ newc : Nat) (rest : List Nat),
        (behav c₀ ch msg).adds = [newc] → (behav c₀ ch msg).removes = [] →
        newc ∉ c₀ :: rest →
        (PubSub_broadcast none behav (c₀ :: rest) (ch, msg)).result =
          .error "Set changed size during iteration" ∧
        (PubSub_broadcast none behav (c₀ :: rest) (ch, msg)).log = [(c₀, ch, msg)] ∧
        newc ∉ ((PubSub_broadcast none behav (c₀ :: rest) (ch, msg)).log.map
          (fun e => e.1))) := by
  constructor
  · intro behav ch msg clients hmut
    refine ⟨clients.filter (fun c =>
      !(((List.filter (fun c => (behav c ch msg).raises) clients)).contains c)), ?_⟩
    unfold PubSub_broadcast
    rw [bcLoop_noMut behav ch msg clients.length clients clients [] [] hmut rfl]
    simp
  · intro behav ch msg c₀ newc rest hadds hrems hnotin
    have hne : newc ≠ c₀ := fun h => hnotin (h ▸ List.mem_cons_self c₀ rest)
    have ha : applyAction (c₀ :: rest) (behav c₀ ch msg) = (c₀ :: rest) ++ [newc] := by
      simp [applyAction, hadds, hrems, setAdd, hnotin]
    have key : PubSub_broadcast none behav (c₀ :: rest) (ch, msg) =
        ⟨.error "Set changed size during iteration", [(c₀, ch, msg)]⟩ := by
      unfold PubSub_broadcast
      rw [bcLoop, if_neg (by simp), ha]
      cases rest with
      | nil => rw [bcLoop, if_pos (by simp)]; simp
      | cons d ds =>
        rw [bcLoop, if_pos (by simp [List.length_append])]
        simp
    exact ⟨by rw [key], by rw [key], by rw [key]; simp [hne]⟩

/-- Witness for C2: a mutation-free broadcast completes, and a broadcast in
which client 0 adds client 1 crashes after invoking only client 0. -/
theorem C2_live_iteration_witness :
    (∃ survivors, (PubSub_broadcast none (fun _ _ _ => ⟨false, [], []⟩) [0]
        ("c".toList, "m".toList)).result = .ok survivors) ∧
    (PubSub_broadcast none addingBehav [0, 7] ("c".toList, "m".toList)).result =
      .error "Set changed size during iteration" ∧
    (PubSub_broadcast none addingBehav [0, 7] ("c".toList, "m".toList)).log =
      [(0, "c".toList, "m".toList)] ∧
    1 ∉ ((PubSub_broadcast none addingBehav [0, 7] ("c".toList, "m".toList)).log.map
      (fun e => e.1)) :=
  ⟨C2_live_iteration.1 (fun _ _ _ => ⟨false, [], []⟩) "c".toList "m".toList [0]
      (fun _ _ => ⟨rfl, rfl⟩),
   C2_live_iteration.2 addingBehav "c".toList "m".toList 0 1 [7] (by decide) (by decide)
      (by decide)⟩

/-! ## Model of `TcpServer` (`pulsar/async/protocols.py` 520-688)

Only the state that `create_protocol` and `close` read or write is kept:
the session counter, whether the server handle `_server` is still set
(i.e. the server is accepting), the configured `max_connections`, and the
set of concurrent connections (as a list of session ids). -/

structure TcpSt where
  sessions : Nat
  serving : Bool
  maxConnections : Option Nat
  conns : List Nat
  deriving DecidableEq

/-- Python truthiness of the gating condition in `TcpServer.create_protocol`:
`self._server and self._max_connections and session >= self._max_connections`
(`max_connections = None` or `0` disables the gate). -/
def maxReached (mc : Option Nat) (session : Nat) : Bool :=
  match mc with
  | none => false
  | some n => decide (n ≠ 0) && decide (session ≥ n)

/-- `TcpServer.create_protocol`: increment the session counter, build the
protocol (represented by its session number), and when the gate fires call
`self.close()`, which clears the server handle (stop accepting) and closes
the concurrent connections, letting the one just created drain.  The result
is `(state, session of the new protocol, whether shutdown was triggered)`. -/
def TcpServer_create_protocol (s : TcpSt) : TcpSt × Nat × Bool :=
  let session := s.sessions + 1
  let s1 : TcpSt := { s with sessions := session }
  if s1.serving && maxReached s1.maxConnections session then
    ({ s1 with serving := false, conns := [] }, session, true)
  else (s1, session, false)

/-- Accept `m` connections in a row; returns the final state and the list of
`(session, shutdown-triggered)` outcomes in order. -/
def runAccepts : Nat → TcpSt → TcpSt × List (Nat × Bool)
  | 0, s => (s, [])
  | m + 1, s =>
    let r := TcpServer_create_protocol s
    let rest := runAccepts m r.1
    (rest.1, r.2 :: rest.2)

theorem runAccepts_no_trigger (N : Nat) :
    ∀ m s, s.serving = true → s.maxConnections = some N → s.sessions + m < N →
      (runAccepts m s).1 = { s with sessions := s.sessions + m } ∧
      ∀ p ∈ (runAccepts m s).2, p.2 = false := by
  intro m
  induction m with
  | zero =>
    intro s hserv hmc _
    refine ⟨?_, by simp [runAccepts]⟩
    simp [runAccepts]
  | succ m ih =>
    intro s hserv hmc hlt
    have hgate : maxReached s.maxConnections (s.sessions + 1) = false := by
      rw [hmc]
      simp only [maxReached, Bool.and_eq_false_iff]
      right
      simp only [decide_eq_false_iff_not, not_le]
      omega
    have hstep : TcpServer_create_protocol s =
        ({ s with sessions := s.sessions + 1 }, s.sessions + 1, false) := by
      simp [TcpServer_create_protocol, hgate]
    have ihr := ih { s with sessions := s.sessions + 1 } (by simp [hserv]) (by simp [hmc])
      (by simp; omega)
    rw [runAccepts, hstep]
    constructor
    · rw [ihr.1]
      simp [Nat.add_assoc, Nat.add_comm 1 m]
    · intro p hp
      rcases List.mem_cons.mp hp with h | h
      · rw [h]
      · exact ihr.2 p h

/-! ## Claim C1: max_connections gating -/

/-- Counterexample to C1 as stated: with `max_connections = 2` the second
accepted session (not the third) already triggers shutdown, so the first N
sessions do not all complete without triggering it. -/
theorem C1_max_connections_cex :
    (TcpServer_create_protocol
      (TcpServer_create_protocol (TcpSt.mk 0 true (some 2) [])).1).2 = (2, true) := by
  decide

/-- C1 (amended): for a serving `TcpServer` with `max_connections = N`
(`N ≥ 1`), the N-th accepted session triggers server shutdown (the server
stops accepting new connections and existing connections drain), and the
first N-1 sessions complete normally without triggering shutdown. -/
theorem C1_max_connections_gate (N : Nat) (hN : 0 < N) :
    (∀ p ∈ (runAccepts (N - 1) (TcpSt.mk 0 true (some N) [])).2, p.2 = false) ∧
    (TcpServer_create_protocol (runAccepts (N - 1) (TcpSt.mk 0 true (some N) [])).1).2 =
      (N, true) ∧
    (TcpServer_create_protocol
      (runAccepts (N - 1) (TcpSt.mk 0 true (some N) [])).1).1.serving = false := by
  have h := runAccepts_no_trigger N (N - 1) (TcpSt.mk 0 true (some N) []) rfl rfl
    (by show 0 + (N - 1) < N; omega)
  refine ⟨h.2, ?_⟩
  rw [h.1]
  have hsess : N - 1 + 1 = N := by omega
  have hgate : maxReached (some N) N = true := by
    simp [maxReached]
    omega
  constructor
  · simp [TcpServer_create_protocol, hsess, hgate]
  · simp [TcpServer_create_protocol, hsess, hgate]

/-- Witness for C1 (amended) at `N = 2`: the first accepted session does not
trigger shutdown, the second does and stops the server from accepting. -/
theorem C1_max_connections_gate_witness :
    (∀ p ∈ (runAccepts (2 - 1) (TcpSt.mk 0 true (some 2) [])).2, p.2 = false) ∧
    (TcpServer_create_protocol (runAccepts (2 - 1) (TcpSt.mk 0 true (some 2) [])).1).2 =
      (2, true) ∧
    (TcpServer_create_protocol
      (runAccepts (2 - 1) (TcpSt.mk 0 true (some 2) [])).1).1.serving = false :=
  C1_max_connections_gate 2 (by decide)

/-! ## Claim C8: idempotent `TcpServer.close` -/

/-- The observable effects of one `TcpServer.close()` call: the state after
the call, the connections whose transports were closed by this call, and
whether this call fired the `stop` event. -/
structure CloseRes where
  st : TcpSt
  closedConns : List Nat
  firedStop : Bool
  deriving DecidableEq

/-- `TcpServer.close` (`protocols.py` 614-625): when the server handle is
still set, clear it, close the underlying server, close every concurrent
connection (`_close_connections` snapshots the set and resets it to empty),
wait for them, and fire `stop`; otherwise do nothing. -/
def TcpServer_close (s : TcpSt) : CloseRes :=
  if s.serving then
    ⟨{ s with serving := false, conns := [] }, s.conns, true⟩
  else ⟨s, [], false⟩

/-- C8: `TcpServer.close` is idempotent: a second `close()` after one has
completed observes the server handle already cleared, closes no connections,
does not fire `stop` again, and leaves the server in the same observable
state as after a single `close()`. -/
theorem C8_close_idempotent (s : TcpSt) :
    (TcpServer_close s).st.serving = false ∧
    TcpServer_close (TcpServer_close s).st =
      ⟨(TcpServer_close s).st, [], false⟩ := by
  by_cases h : s.serving <;> simp [TcpServer_close, h]

/-! ## Claim C4: preconditions of `ProtocolConsumer.start`
(`pulsar/async/protocols.py` 144-172) -/

/-- A transport; `closing` is the `_closing` flag its `closed` predicate
inspects.  `ProtocolConsumer.start` never reads it. -/
structure Transport4 where
  closing : Bool
  deriving DecidableEq

/-- The slice of a `Connection` that `start` reads: its transport slot and
its `_processed` counter. -/
structure Conn4 where
  transport : Option Transport4
  processed : Nat
  deriving DecidableEq

/-- The slice of a `ProtocolConsumer` that `start` reads: whether `start`
already ran (Python: `hasattr(self, '_request')`) and the `_connection`
back-reference. -/
structure Cons4 where
  started : Bool
  connection : Option Conn4
  deriving DecidableEq

/-- `ProtocolConsumer.start` on the server path (`request=None`): raise if
already started, if there is no connection, or if the connection's transport
slot is empty (`if not conn._transport`); otherwise increment the
connection's `_processed` counter, bind `_finished` to `post_request`, record
the request and fire `pre_request` (event listeners never raise).  Note the
code checks only that a transport is *set*, not that it is open. -/
def ProtocolConsumer_start (s : Cons4) : Except String (Cons4 × Conn4) :=
  if s.started then .error "Consumer already started"
  else
    match s.connection with
    | none => .error "Cannot start new request. No connection."
    | some conn =>
      match conn.transport with
      | none => .error "has no transport"
      | some _ => .ok ({ s with started := true }, { conn with processed := conn.processed + 1 })

/-- `start` raised, i.e. the call is an `Except.error`. -/
def startRaises (s : Cons4) : Prop :=
  ∃ e, ProtocolConsumer_start s = .error e

/-- The consumer's connection has an open (set and not closing) transport —
the precondition C2 of the claim, stated in the claim's own words. -/
def hasOpenTransport (s : Cons4) : Prop :=
  ∃ c t, s.connection = some c ∧ c.transport = some t ∧ t.closing = false

instance (s : Cons4) : Decidable (startRaises s) := by
  unfold startRaises
  cases h : ProtocolConsumer_start s with
  | ok v => exact .isFalse (fun ⟨e, he⟩ => by cases he)
  | error e => exact .isTrue ⟨e, rfl⟩

instance (s : Cons4) : Decidable (hasOpenTransport s) := by
  unfold hasOpenTransport
  cases hc : s.connection with
  | none => exact .isFalse (fun ⟨c, t, h1, _, _⟩ => by cases h1)
  | some c =>
    cases ht : c.transport with
    | none =>
      exact .isFalse (fun ⟨c', t, h1, h2, _⟩ => by
        cases h1
        rw [ht] at h2
        cases h2)
    | some t =>
      cases hcl : t.closing with
      | false => exact .isTrue ⟨c, t, rfl, ht ▸ rfl, hcl⟩
      | true =>
        exact .isFalse (fun ⟨c', t', h1, h2, h3⟩ => by
          cases h1
          rw [ht] at h2
          cases h2
          rw [hcl] at h3
          cases h3)

/-- Counterexample to C4 as stated: a consumer whose connection holds a
closed (closing) transport has no *open* transport, yet `start` does not
raise — the code only checks that the transport slot is non-empty. -/
theorem C4_start_preconditions_cex :
    ¬ (startRaises (Cons4.mk false (some (Conn4.mk (some (Transport4.mk true)) 0))) ↔
        (Cons4.mk false (some (Conn4.mk (some (Transport4.mk true)) 0))).connection = none ∨
        ¬ hasOpenTransport (Cons4.mk false (some (Conn4.mk (some (Transport4.mk true)) 0))) ∨
        (Cons4.mk false (some (Conn4.mk (some (Transport4.mk true)) 0))).started = true) := by
  decide

/-- C4 (amended): `ProtocolConsumer.start` raises a runtime error exactly
when the consumer has no Connection, when the connection's transport slot is
empty (regardless of whether a set transport is open), or when `start` has
already been called on the same consumer; under those preconditions it does
not raise. -/
theorem C4_start_preconditions (s : Cons4) :
    startRaises s ↔
      s.connection = none ∨ (s.connection.bind (fun c => c.transport)) = none ∨
      s.started = true := by
  cases hs : s.started
  · cases hc : s.connection with
    | none => simp [startRaises, ProtocolConsumer_start, hs, hc]
    | some conn =>
      cases ht : conn.transport with
      | none => simp [startRaises, ProtocolConsumer_start, hs, hc, ht]
      | some t => simp [startRaises, ProtocolConsumer_start, hs, hc, ht]
  · simp [startRaises, ProtocolConsumer_start, hs]

/-! ## Claim C5: `post_request` fires exactly once -/

/-- The `post_request` OneTime event of a consumer: whether it has fired and
how many times a firing actually happened. -/
structure PostEvent where
  fired : Bool
  count : Nat
  deriving DecidableEq

/-- Modelled from the spec: firing a OneTime event that has already fired is
a no-op (the `EventHandler`/`OneTime` machinery lives in
`pulsar/async/events.py`, which is not under `src/`); otherwise the event
fires, storing its outcome.  `count` counts the actual firings. -/
def fireOneTime (e : PostEvent) : PostEvent :=
  if e.fired then e else ⟨true, e.count + 1⟩

/-- `ProtocolConsumer.finished` (`protocols.py` 181-185): fire the
`post_request` event if it wasn't already fired. -/
def ProtocolConsumer_finished (e : PostEvent) : PostEvent :=
  if e.fired then e else fireOneTime e

/-- `ProtocolConsumer.connection_lost` (`protocols.py` 174-179): delegates to
`finished`. -/
def ProtocolConsumer_connection_lost (e : PostEvent) : PostEvent :=
  ProtocolConsumer_finished e

/-- A lifetime interaction with the consumer: a `finished` call or a
`connection_lost` call. -/
inductive LifeCall where
  | finishedCall
  | connLostCall
  deriving DecidableEq

/-- Run a sequence of `finished` / `connection_lost` calls on a consumer's
`post_request` event. -/
def runLifeCalls : List LifeCall → PostEvent → PostEvent
  | [], e => e
  | .finishedCall :: rest, e => runLifeCalls rest (ProtocolConsumer_finished e)
  | .connLostCall :: rest, e => runLifeCalls rest (ProtocolConsumer_connection_lost e)

theorem runLifeCalls_fired (calls : List LifeCall) (e : PostEvent)
    (h : e.fired = true) : runLifeCalls calls e = e := by
  induction calls with
  | nil => rfl
  | cons c rest ih =>
    cases c <;>
      simp [runLifeCalls, ProtocolConsumer_finished, ProtocolConsumer_connection_lost, h, ih]

/-- C5: for every ProtocolConsumer, the `post_request` event fires exactly
once over its lifetime: `finished` fires it only if it has not already fired,
so any nonempty sequence of `finished` and `connection_lost` calls (the
latter delegating to `finished`) on a fresh consumer produces exactly one
`post_request` firing. -/
theorem C5_post_request_once (calls : List LifeCall) (h : calls ≠ []) :
    (runLifeCalls calls ⟨false, 0⟩).count = 1 ∧
    (runLifeCalls calls ⟨false, 0⟩).fired = true := by
  cases calls with
  | nil => exact absurd rfl h
  | cons c rest =>
    have hstep : ∀ f : PostEvent → PostEvent,
        f = ProtocolConsumer_finished ∨ f = ProtocolConsumer_connection_lost →
        f ⟨false, 0⟩ = ⟨true, 1⟩ := by
      rintro f (rfl | rfl) <;>
        simp [ProtocolConsumer_finished, ProtocolConsumer_connection_lost, fireOneTime]
    cases c
    · rw [runLifeCalls, hstep _ (Or.inl rfl), runLifeCalls_fired rest ⟨true, 1⟩ rfl]
      exact ⟨rfl, rfl⟩
    · rw [runLifeCalls, hstep _ (Or.inr rfl), runLifeCalls_fired rest ⟨true, 1⟩ rfl]
      exact ⟨rfl, rfl⟩

/-- Witness for C5 on a concrete call sequence mixing `finished` and
`connection_lost`. -/
theorem C5_post_request_once_witness :
    (runLifeCalls [.finishedCall, .connLostCall, .finishedCall] ⟨false, 0⟩).count = 1 ∧
    (runLifeCalls [.finishedCall, .connLostCall, .finishedCall] ⟨false, 0⟩).fired = true :=
  C5_post_request_once [.finishedCall, .connLostCall, .finishedCall] (by decide)

/-! ## Model of `Connection` request multiplexing
(`pulsar/async/protocols.py` 144-202 and 368-464)

A `Connection` owns a list of the consumers it created (a consumer id is an
index into that list), the current-consumer slot, the id of the consumer on
whose `post_request` the `upgrade` method bound `_build_consumer` (if any),
the `_processed` counter, the idle-timer flag, and a log of the observable
events in order. -/

inductive Ev3 where
  | timerCancel
  | timerArm
  | built (id : Nat)
  | pre (id : Nat)
  | dataRecvE (id : Nat) (data : Str)
  | dataProcE (id : Nat) (data : Str)
  | post (id : Nat)
  deriving DecidableEq

/-- Per-consumer state: whether `start` ran (Python `hasattr(self,
'_request')`), whether `post_request` fired, the line buffer of the toy
line consumer, and `_data_received_count`. -/
structure Consumer3 where
  started : Bool
  postFired : Bool
  buf : Str
  dataCount : Nat
  deriving DecidableEq

def newConsumer3 : Consumer3 := ⟨false, false, [], 0⟩

structure Conn3 where
  consumers : List Consumer3
  current : Option Nat
  upgradeBoundOn : Option Nat
  processed : Nat
  timerArmed : Bool
  log : List Ev3
  deriving DecidableEq

/-- A fresh server connection right after `connection_made` (idle timer
armed, no consumer yet). -/
def conn3 : Conn3 := ⟨[], none, none, 0, true, []⟩

/-- Indexed read of the consumer list (total, with a default that no
modelled path reaches). -/
def listGet : List Consumer3 → Nat → Consumer3
  | [], _ => newConsumer3
  | c :: _, 0 => c
  | _ :: rest, n + 1 => listGet rest n

/-- Indexed write of the consumer list. -/
def listSet : List Consumer3 → Nat → Consumer3 → List Consumer3
  | [], _, _ => []
  | _ :: rest, 0, c => c :: rest
  | x :: rest, n + 1, c => x :: listSet rest n c

def getC (s : Conn3) (i : Nat) : Consumer3 := listGet s.consumers i

def setC (s : Conn3) (i : Nat) (c : Consumer3) : Conn3 :=
  { s with consumers := listSet s.consumers i c }

/-- `Connection._build_consumer(_, exc=None)` (`protocols.py` 449-452): only
when `exc` is falsy, build a consumer via the producer and `set_consumer` it
(the `set_consumer` assertion that the slot is empty holds on every modelled
path). -/
def Connection_build_consumer (s : Conn3) (exc : Option String) : Conn3 :=
  match exc with
  | some _ => s
  | none =>
    { s with consumers := s.consumers ++ [newConsumer3],
             current := some s.consumers.length,
             log := s.log ++ [Ev3.built s.consumers.length] }

/-- `Connection.current_consumer` (`protocols.py` 392-401): lazily build a
consumer when the slot is empty; return the current consumer's id. -/
def Connection_current_consumer (s : Conn3) : Conn3 × Nat :=
  match s.current with
  | some i => (s, i)
  | none => (Connection_build_consumer s none, s.consumers.length)

/-- `ProtocolConsumer.start` on the server path (`request=None`): increment
the connection's `_processed`, bind `_finished` to `post_request`, record the
request and fire `pre_request` (`protocols.py` 144-172). -/
def consumer_start (s : Conn3) (i : Nat) : Conn3 :=
  let c := getC s i
  let s1 := setC s i { c with started := true }
  { s1 with processed := s1.processed + 1, log := s1.log ++ [Ev3.pre i] }

/-- `ProtocolConsumer.finished` firing `post_request` with optional error:
the OneTime guard, then the listeners in bind order — `_finished` (bound at
`start`) clears the connection's current-consumer slot iff it still points at
this consumer (`protocols.py` 199-202), then `_build_consumer` when `upgrade`
bound it on this consumer (`protocols.py` 439), which rebuilds only when the
error is falsy. -/
def consumer_finished (s : Conn3) (i : Nat) (exc : Option String) : Conn3 :=
  let c := getC s i
  if c.postFired then s
  else
    let s1 := setC s i { c with postFired := true }
    let s2 := { s1 with log := s1.log ++ [Ev3.post i] }
    let s3 := if s2.current = some i then { s2 with current := none } else s2
    match s3.upgradeBoundOn with
    | some j =>
      if j = i then Connection_build_consumer { s3 with upgradeBoundOn := none } exc
      else s3
    | none => s3

/-- Split a byte string at the first newline: `some (line, rest)` or `none`
when no newline is present. -/
def splitNl : Str → Option (Str × Str)
  | [] => none
  | c :: r =>
    if c = '\n' then some ([], r)
    else (splitNl r).map (fun p => (c :: p.1, p.2))

/-- The `data_received` method of the toy line-oriented server consumer of
the spec's S1 scenario: a request is one newline-terminated line; on a full
line the consumer calls `finished()` and returns the unconsumed tail,
otherwise it buffers and returns nothing. -/
def line_data_received (s : Conn3) (i : Nat) (data : Str) : Conn3 × Str :=
  let c := getC s i
  let total := c.buf ++ data
  match splitNl total with
  | some p =>
    let s1 := setC s i { c with buf := [] }
    (consumer_finished s1 i none, p.2)
  | none => (setC s i { c with buf := total }, [])

/-- `ProtocolConsumer._data_received` (`protocols.py` 187-197): start the
consumer implicitly on the first chunk, bump `_data_received_count`, fire the
`data_received` event, run the subclass `data_received`, fire
`data_processed`, and return the residual bytes. -/
def consumer_data_received (s : Conn3) (i : Nat) (data : Str) : Conn3 × Str :=
  let s1 := if (getC s i).started then s else consumer_start s i
  let c := getC s1 i
  let s2 := setC s1 i { c with dataCount := c.dataCount + 1 }
  let s3 := { s2 with log := s2.log ++ [Ev3.dataRecvE i data] }
  let r := line_data_received s3 i data
  ({ r.1 with log := r.1.log ++ [Ev3.dataProcE i data] }, r.2)

/-- The `while data:` loop of `Connection.data_received` (`protocols.py`
416-418), with fuel (each iteration of the line consumer strictly consumes
input, so `data.length + 1` steps always suffice). -/
def conn_loop : Nat → Conn3 → Str → Conn3
  | 0, s, _ => s
  | fuel + 1, s, data =>
    if data = [] then s
    else
      let r0 := Connection_current_consumer s
      let r1 := consumer_data_received r0.1 r0.2 data
      conn_loop fuel r1.1 r1.2

/-- `Connection.data_received` (`protocols.py` 409-419): cancel the idle
timer, feed the current consumer while bytes remain, re-arm the idle
timer. -/
def Connection_data_received (s : Conn3) (data : Str) : Conn3 :=
  let s1 := { s with timerArmed := false, log := s.log ++ [Ev3.timerCancel] }
  let s2 := conn_loop (data.length + 1) s1 data
  { s2 with timerArmed := true, log := s2.log ++ [Ev3.timerArm] }

/-- `Connection.upgrade` (`protocols.py` 421-441): replace the consumer
factory; when a consumer is active, bind `_build_consumer` to its
`post_request`, otherwise build a consumer immediately. -/
def Connection_upgrade (s : Conn3) : Conn3 :=
  match s.current with
  | some i => { s with upgradeBoundOn := some i }
  | none => Connection_build_consumer s none

/-! ## Lemmas about the connection model -/

theorem splitNl_append (a b : Str) (h : '\n' ∉ a) :
    splitNl (a ++ '\n' :: b) = some (a, b) := by
  induction a with
  | nil => simp [splitNl]
  | cons c a' ih =>
    have hc : c ≠ '\n' := fun heq => h (heq ▸ List.mem_cons_self c a')
    have ha' : '\n' ∉ a' := fun hm => h (List.mem_cons_of_mem c hm)
    simp [splitNl, hc, ih ha']

theorem conn_loop_nil (fuel : Nat) (s : Conn3) : conn_loop fuel s [] = s := by
  cases fuel <;> simp [conn_loop]

theorem conn_loop_succ (fuel : Nat) (s : Conn3) (data : Str) (h : data ≠ []) :
    conn_loop (fuel + 1) s data =
      conn_loop fuel
        (consumer_data_received (Connection_current_consumer s).1
          (Connection_current_consumer s).2 data).1
        (consumer_data_received (Connection_current_consumer s).1
          (Connection_current_consumer s).2 data).2 := by
  simp [conn_loop, h]

theorem listSet_length (l : List Consumer3) (i : Nat) (c : Consumer3) :
    (listSet l i c).length = l.length := by
  induction l generalizing i with
  | nil => rfl
  | cons x rest ih =>
    cases i with
    | zero => rfl
    | succ n => simp [listSet, ih]

/-! ## Claim C3: pipelined requests on one connection -/

/-- C3: `Connection.data_received` first cancels the idle timer, then
repeatedly feeds the remaining bytes to the current consumer's
`_data_received` while bytes remain, then re-arms the idle timer; a consumer
that returns an unconsumed tail after firing `post_request` vacates the
current-consumer slot, so the next loop iteration builds a fresh consumer for
the tail — feeding two concatenated newline-terminated requests in one chunk
yields two distinct consumers (ids 0 and 1) and two `post_request` firings in
order, as the full event log shows. -/
theorem C3_pipelining (r1 r2 : Str) (h1 : '\n' ∉ r1) (h2 : '\n' ∉ r2) :
    Connection_data_received conn3 (r1 ++ '\n' :: (r2 ++ ['\n'])) =
      ⟨[⟨true, true, [], 1⟩, ⟨true, true, [], 1⟩], none, none, 2, true,
       [Ev3.timerCancel, Ev3.built 0, Ev3.pre 0,
        Ev3.dataRecvE 0 (r1 ++ '\n' :: (r2 ++ ['\n'])), Ev3.post 0,
        Ev3.dataProcE 0 (r1 ++ '\n' :: (r2 ++ ['\n'])),
        Ev3.built 1, Ev3.pre 1, Ev3.dataRecvE 1 (r2 ++ ['\n']), Ev3.post 1,
        Ev3.dataProcE 1 (r2 ++ ['\n']), Ev3.timerArm]⟩ := by
  have hd1 : (r1 ++ '\n' :: (r2 ++ ['\n'])) ≠ [] := by simp
  have hd2 : (r2 ++ ['\n']) ≠ [] := by simp
  have hsp1 : splitNl (r1 ++ '\n' :: (r2 ++ ['\n'])) = some (r1, r2 ++ ['\n']) :=
    splitNl_append r1 (r2 ++ ['\n']) h1
  have hsp2 : splitNl (r2 ++ ['\n']) = some (r2, []) := splitNl_append r2 [] h2
  have hlen : (r1 ++ '\n' :: (r2 ++ ['\n'])).length = (r1.length + r2.length + 1) + 1 := by
    simp only [List.length_append, List.length_cons, List.length_nil]
    omega
  have hcc1 : Connection_current_consumer
      (⟨[], none, none, 0, false, [Ev3.timerCancel]⟩ : Conn3) =
      (⟨[newConsumer3], some 0, none, 0, false,
        [Ev3.timerCancel, Ev3.built 0]⟩, 0) := rfl
  have hcd1 : consumer_data_received
      (⟨[newConsumer3], some 0, none, 0, false,
        [Ev3.timerCancel, Ev3.built 0]⟩ : Conn3) 0 (r1 ++ '\n' :: (r2 ++ ['\n'])) =
      (⟨[⟨true, true, [], 1⟩], none, none, 1, false,
        [Ev3.timerCancel, Ev3.built 0, Ev3.pre 0,
         Ev3.dataRecvE 0 (r1 ++ '\n' :: (r2 ++ ['\n'])), Ev3.post 0,
         Ev3.dataProcE 0 (r1 ++ '\n' :: (r2 ++ ['\n']))]⟩, r2 ++ ['\n']) := by
    simp [consumer_data_received, consumer_start, line_data_received, consumer_finished,
      getC, setC, listGet, listSet, newConsumer3, Connection_build_consumer, hsp1]
  have hcd1' : consumer_data_received
      (Connection_current_consumer
        (⟨[], none, none, 0, false, [Ev3.timerCancel]⟩ : Conn3)).1
      (Connection_current_consumer
        (⟨[], none, none, 0, false, [Ev3.timerCancel]⟩ : Conn3)).2
      (r1 ++ '\n' :: (r2 ++ ['\n'])) =
      (⟨[⟨true, true, [], 1⟩], none, none, 1, false,
        [Ev3.timerCancel, Ev3.built 0, Ev3.pre 0,
         Ev3.dataRecvE 0 (r1 ++ '\n' :: (r2 ++ ['\n'])), Ev3.post 0,
         Ev3.dataProcE 0 (r1 ++ '\n' :: (r2 ++ ['\n']))]⟩, r2 ++ ['\n']) := by
    rw [hcc1]
    exact hcd1
  have hcd2 : consumer_data_received
      (⟨[⟨true, true, [], 1⟩, newConsumer3], some 1, none, 1, false,
        [Ev3.timerCancel, Ev3.built 0, Ev3.pre 0,
         Ev3.dataRecvE 0 (r1 ++ '\n' :: (r2 ++ ['\n'])), Ev3.post 0,
         Ev3.dataProcE 0 (r1 ++ '\n' :: (r2 ++ ['\n'])), Ev3.built 1]⟩ : Conn3) 1
      (r2 ++ ['\n']) =
      (⟨[⟨true, true, [], 1⟩, ⟨true, true, [], 1⟩], none, none, 2, false,
        [Ev3.timerCancel, Ev3.built 0, Ev3.pre 0,
         Ev3.dataRecvE 0 (r1 ++ '\n' :: (r2 ++ ['\n'])), Ev3.post 0,
         Ev3.dataProcE 0 (r1 ++ '\n' :: (r2 ++ ['\n'])), Ev3.built 1, Ev3.pre 1,
         Ev3.dataRecvE 1 (r2 ++ ['\n']), Ev3.post 1,
         Ev3.dataProcE 1 (r2 ++ ['\n'])]⟩, []) := by
    simp [consumer_data_received, consumer_start, line_data_received, consumer_finished,
      getC, setC, listGet, listSet, newConsumer3, Connection_build_consumer, hsp2]
  have hcd2' : consumer_data_received
      (Connection_current_consumer
        (⟨[⟨true, true, [], 1⟩], none, none, 1, false,
          [Ev3.timerCancel, Ev3.built 0, Ev3.pre 0,
           Ev3.dataRecvE 0 (r1 ++ '\n' :: (r2 ++ ['\n'])), Ev3.post 0,
           Ev3.dataProcE 0 (r1 ++ '\n' :: (r2 ++ ['\n']))]⟩ : Conn3)).1
      (Connection_current_consumer
        (⟨[⟨true, true, [], 1⟩], none, none, 1, false,
          [Ev3.timerCancel, Ev3.built 0, Ev3.pre 0,
           Ev3.dataRecvE 0 (r1 ++ '\n' :: (r2 ++ ['\n'])), Ev3.post 0,
           Ev3.dataProcE 0 (r1 ++ '\n' :: (r2 ++ ['\n']))]⟩ : Conn3)).2
      (r2 ++ ['\n']) =
      (⟨[⟨true, true, [], 1⟩, ⟨true, true, [], 1⟩], none, none, 2, false,
        [Ev3.timerCancel, Ev3.built 0, Ev3.pre 0,
         Ev3.dataRecvE 0 (r1 ++ '\n' :: (r2 ++ ['\n'])), Ev3.post 0,
         Ev3.dataProcE 0 (r1 ++ '\n' :: (r2 ++ ['\n'])), Ev3.built 1, Ev3.pre 1,
         Ev3.dataRecvE 1 (r2 ++ ['\n']), Ev3.post 1,
         Ev3.dataProcE 1 (r2 ++ ['\n'])]⟩, []) := by
    exact hcd2
  have hloop : conn_loop ((r1 ++ '\n' :: (r2 ++ ['\n'])).length + 1)
      (⟨[], none, none, 0, false, [Ev3.timerCancel]⟩ : Conn3)
      (r1 ++ '\n' :: (r2 ++ ['\n'])) =
      ⟨[⟨true, true, [], 1⟩, ⟨true, true, [], 1⟩], none, none, 2, false,
       [Ev3.timerCancel, Ev3.built 0, Ev3.pre 0,
        Ev3.dataRecvE 0 (r1 ++ '\n' :: (r2 ++ ['\n'])), Ev3.post 0,
        Ev3.dataProcE 0 (r1 ++ '\n' :: (r2 ++ ['\n'])), Ev3.built 1, Ev3.pre 1,
        Ev3.dataRecvE 1 (r2 ++ ['\n']), Ev3.post 1,
        Ev3.dataProcE 1 (r2 ++ ['\n'])]⟩ := by
    rw [hlen, conn_loop_succ _ _ _ hd1, hcd1']
    dsimp only
    rw [conn_loop_succ _ _ _ hd2, hcd2']
    dsimp only
    exact conn_loop_nil _ _
  show ({ conn_loop ((r1 ++ '\n' :: (r2 ++ ['\n'])).length + 1)
          (⟨[], none, none, 0, false, [Ev3.timerCancel]⟩ : Conn3)
          (r1 ++ '\n' :: (r2 ++ ['\n'])) with
        timerArmed := true,
        log := (conn_loop ((r1 ++ '\n' :: (r2 ++ ['\n'])).length + 1)
          (⟨[], none, none, 0, false, [Ev3.timerCancel]⟩ : Conn3)
          (r1 ++ '\n' :: (r2 ++ ['\n']))).log ++ [Ev3.timerArm] } : Conn3) = _
  rw [hloop]
  rfl

/-- Witness for C3: the concrete chunk `"a\nb\n"` produces consumers 0 and 1
with their events in order. -/
theorem C3_pipelining_witness :
    Connection_data_received conn3 (['a'] ++ '\n' :: (['b'] ++ ['\n'])) =
      ⟨[⟨true, true, [], 1⟩, ⟨true, true, [], 1⟩], none, none, 2, true,
       [Ev3.timerCancel, Ev3.built 0, Ev3.pre 0,
        Ev3.dataRecvE 0 (['a'] ++ '\n' :: (['b'] ++ ['\n'])), Ev3.post 0,
        Ev3.dataProcE 0 (['a'] ++ '\n' :: (['b'] ++ ['\n'])),
        Ev3.built 1, Ev3.pre 1, Ev3.dataRecvE 1 (['b'] ++ ['\n']), Ev3.post 1,
        Ev3.dataProcE 1 (['b'] ++ ['\n']), Ev3.timerArm]⟩ :=
  C3_pipelining ['a'] ['b'] (by decide) (by decide)

/-! ## Claim C9: no consumer rebuild on errored completion -/

/-- C9: when a Connection's current consumer fires `post_request` with a
non-`None` error, the `post_request` listener installed by `upgrade` (the
same `_build_consumer` used for lazy consumer building) does not build a
replacement consumer: a new consumer is constructed only on error-free
completion, so after an errored request the current-consumer slot stays empty
until new data arrives (`current_consumer` builds lazily) or `upgrade` is
called again (which builds immediately on an empty slot). -/
theorem C9_no_rebuild_on_error (s : Conn3) (i : Nat) (e : String)
    (hcur : s.current = some i) (hpf : (getC s i).postFired = false) :
    (consumer_finished (Connection_upgrade s) i (some e)).current = none ∧
    (consumer_finished (Connection_upgrade s) i none).current =
      some s.consumers.length ∧
    (Connection_current_consumer
      (consumer_finished (Connection_upgrade s) i (some e))).1.current =
      some (consumer_finished (Connection_upgrade s) i (some e)).consumers.length ∧
    (Connection_upgrade
      (consumer_finished (Connection_upgrade s) i (some e))).current =
      some (consumer_finished (Connection_upgrade s) i (some e)).consumers.length := by
  have hup : Connection_upgrade s = { s with upgradeBoundOn := some i } := by
    simp [Connection_upgrade, hcur]
  have hpf' : (listGet s.consumers i).postFired = false := hpf
  have hfin : ∀ exc, consumer_finished { s with upgradeBoundOn := some i } i exc =
      Connection_build_consumer
        ⟨listSet s.consumers i { getC s i with postFired := true }, none, none,
         s.processed, s.timerArmed, s.log ++ [Ev3.post i]⟩ exc := by
    intro exc
    simp [consumer_finished, getC, setC, hpf', hcur]
  constructor
  · rw [hup, hfin (some e)]
    rfl
  constructor
  · rw [hup, hfin none]
    simp [Connection_build_consumer, listSet_length]
  constructor
  · rw [hup, hfin (some e)]
    rfl
  · rw [hup, hfin (some e)]
    rfl

/-- A connection with one freshly built, unfinished consumer (id 0). -/
def upgradeExample : Conn3 := Connection_build_consumer conn3 none

/-- Witness for C9 on the concrete one-consumer connection. -/
theorem C9_no_rebuild_on_error_witness :
    (consumer_finished (Connection_upgrade upgradeExample) 0 (some "err")).current = none ∧
    (consumer_finished (Connection_upgrade upgradeExample) 0 none).current =
      some upgradeExample.consumers.length ∧
    (Connection_current_consumer
      (consumer_finished (Connection_upgrade upgradeExample) 0 (some "err"))).1.current =
      some (consumer_finished (Connection_upgrade upgradeExample) 0
        (some "err")).consumers.length ∧
    (Connection_upgrade
      (consumer_finished (Connection_upgrade upgradeExample) 0 (some "err"))).current =
      some (consumer_finished (Connection_upgrade upgradeExample) 0
        (some "err")).consumers.length :=
  C9_no_rebuild_on_error upgradeExample 0 "err" (by decide) (by decide)
